import Mathlib

/-!
Shallow embedding of `src/main.py` of the receipt-print relay service
(FastAPI app: upload an image, store it, forward it to a printer API,
track job status in an in-memory dict).

Modelling conventions:
  * Byte strings are `List Nat` (one entry per byte).
  * The PIL decoder (`PIL.Image.open` + `.format`) is an external library,
    modelled as an oracle `PILDecode`: `none` means `Image.open` raised an
    exception, `some none` means it decoded but `image.format` was `None`,
    `some (some f)` means it decoded with format name `f`.
  * The in-memory dict `jobs_db` and the `uploads` directory are modelled
    as association lists with Python-dict update semantics (`assocSet`
    replaces the first binding of the key, otherwise appends).
  * `uuid.uuid4()` is modelled by formatting 128 random bits `rand : Nat`
    into the canonical hyphenated hex string (`uuidStr`).
  * `datetime.now().isoformat()` values are opaque strings supplied as
    arguments (`now1`, `now2` for the two separate calls in the upload
    handler).
  * An `HTTPException(status_code, detail)` raised by a handler is the
    `httpError` constructor of the handler's response type; an exception
    that escapes the handler uncaught (FastAPI then replies HTTP 500
    Internal Server Error) is the `unhandledError` constructor.
-/

namespace ReceiptPrint

/-- Oracle for the external PIL image decoder, see the module docstring. -/
abbrev PILDecode : Type := List Nat → Option (Option String)

/-- Association-list lookup with Python dict semantics (`d[k]` / `k in d`). -/
def assocGet {β : Type} (k : String) : List (String × β) → Option β
  | [] => none
  | (k', v) :: rest => if k' = k then some v else assocGet k rest

/-- Association-list update with Python dict semantics (`d[k] = v`):
replace the first binding of `k`, otherwise append a new binding. -/
def assocSet {β : Type} (k : String) (v : β) : List (String × β) → List (String × β)
  | [] => [(k, v)]
  | (k', v') :: rest => if k' = k then (k, v) :: rest else (k', v') :: assocSet k v rest

/-- Containment of `pat` as a contiguous substring of a byte list
(Python `pat in bytes`). -/
def containsSub (pat : List Nat) : List Nat → Bool
  | [] => pat.isEmpty
  | b :: rest => List.isPrefixOf pat (b :: rest) || containsSub pat rest

/-- Python `s.startswith(pre)` on character lists. -/
def strStartsWith (s pre : String) : Bool := List.isPrefixOf pre.data s.data

/-- Python `s.endswith(post)` on character lists. -/
def strEndsWith (s post : String) : Bool := List.isSuffixOf post.data s.data

/-- Python `s.lower()` on character lists (ASCII lowering, as `Char.toLower`). -/
def strToLower (s : String) : String := String.mk (s.data.map Char.toLower)

/-- Lower-case hex digit, as produced by Python uuid formatting. -/
def hexDigit (n : Nat) : Char := Char.ofNat (if n < 10 then 48 + n else 87 + n)

/-- The 32 hex digits of a version-4 UUID built from 128 random bits:
digit 12 is the version nibble `4`, digit 16 has its two top bits `10`. -/
def uuid4hex (r : Nat) : List Char :=
  (List.range 32).map (fun i =>
    if i = 12 then hexDigit 4
    else if i = 16 then hexDigit (8 + (r / 16 ^ i) % 4)
    else hexDigit ((r / 16 ^ i) % 16))

/-- Character list of `str(uuid.uuid4())`: hex digits grouped 8-4-4-4-12. -/
def uuidChars (r : Nat) : List Char :=
  (uuid4hex r).take 8 ++ ['-'] ++ ((uuid4hex r).drop 8).take 4 ++ ['-'] ++
    ((uuid4hex r).drop 12).take 4 ++ ['-'] ++ ((uuid4hex r).drop 16).take 4 ++ ['-'] ++
    (uuid4hex r).drop 20

/-- Embedding of `str(uuid.uuid4())` (src/main.py:115) from 128 random bits. -/
def uuidStr (r : Nat) : String := String.mk (uuidChars r)

/-- Job record stored in `jobs_db` (src/main.py:123-130). -/
structure Job where
  filename : String
  file_path : String
  size : Nat
  status : String
  created_at : String
  updated_at : String
  deriving Repr, DecidableEq

/-- Server state: the in-memory `jobs_db` dict and the `uploads` directory
(path ↦ byte content). -/
structure ServerState where
  jobs_db : List (String × Job)
  files : List (String × List Nat)
  deriving Repr, DecidableEq

/-- Initial state: empty dict, empty uploads directory. -/
def emptyState : ServerState := { jobs_db := [], files := [] }

/-- List of accepted PIL format names (src/main.py:51).  Note it contains
the entry `jpg` in addition to `jpeg`. -/
def supported_formats : List String :=
  [("jpeg"), ("jpg"), ("png"), ("gif"), ("webp"), ("heic"), ("heif")]

/-- HEIC/HEIF container markers searched for as substrings of the first 32
bytes (src/main.py:63-68): ASCII `ftypheic`, `ftypheif`, `ftypmif1`,
`ftypmsf1`. -/
def heic_patterns : List (List Nat) :=
  [[102, 116, 121, 112, 104, 101, 105, 99],
   [102, 116, 121, 112, 104, 101, 105, 102],
   [102, 116, 121, 112, 109, 105, 102, 49],
   [102, 116, 121, 112, 109, 115, 102, 49]]

/-- Magic-byte fallback of `validate_image` (src/main.py:58-90), used when
the PIL decode attempt raised: HEIC/HEIF markers as substrings of the
first 32 bytes, then prefixes `FF D8 FF` (JPEG), `89 50 4E 47` (PNG),
`GIF8`, and `RIFF` with ASCII `WEBP` in the first 12 bytes. -/
def magic_fallback (file_content : List Nat) : Bool :=
  let magic_bytes := if 32 ≤ file_content.length then file_content.take 32 else file_content
  if heic_patterns.any (fun pattern => containsSub pattern magic_bytes) then true
  else if List.isPrefixOf [255, 216, 255] file_content then true
  else if List.isPrefixOf [137, 80, 78, 71] file_content then true
  else if List.isPrefixOf [71, 73, 70, 56] file_content then true
  else if List.isPrefixOf [82, 73, 70, 70] file_content
      && containsSub [87, 69, 66, 80] (file_content.take 12) then true
  else false

/-- Embedding of `validate_image` (src/main.py:47-90): try PIL decode and
accept when the lower-cased format name is in `supported_formats` (a `None`
format counts as the empty string); if decoding raised, fall back to the
magic-byte inspection. -/
def validate_image (decode : PILDecode) (file_content : List Nat) : Bool :=
  match decode file_content with
  | some fmt? =>
    let format_name := match fmt? with | some f => strToLower f | none => ""
    supported_formats.contains format_name
  | none => magic_fallback file_content

/-- Truthiness test of `image.content_type and not
image.content_type.startswith('image/')` (src/main.py:99): `None` and the
empty string are falsy, so the rejection fires only for a non-empty
declared content type that does not start with `image/`. -/
def content_type_invalid : Option String → Bool
  | some t => (t != "") && !(strStartsWith t ("image/"))
  | none => false

/-- Python `image.filename or f"image_{job_id}"` (src/main.py:116):
`None` and the empty string fall back to the generated default. -/
def safe_filename (fname : Option String) (job_id : String) : String :=
  match fname with
  | some s => if s = "" then "image_" ++ job_id else s
  | none => "image_" ++ job_id

/-- Response of the upload handler: the success JSON
`{success, jobId, filename, size}` or a raised `HTTPException`. -/
inductive UploadResponse where
  | ok (jobId : String) (filename : String) (size : Nat)
  | httpError (status : Nat) (detail : String)
  deriving Repr, DecidableEq

/-- Detail string of the content-type rejection (src/main.py:101). -/
def invalidTypeMsg : String := "Invalid file type. Only images are allowed."

/-- Detail string of the empty-body rejection (src/main.py:107). -/
def emptyMsg : String := "Empty file received."

/-- Detail string of the format rejection (src/main.py:110). -/
def invalidFormatMsg : String :=
  "Invalid image format. Only JPG, PNG, GIF, HEIC, HEIF are supported."

/-- Detail string of the size rejection (src/main.py:113). -/
def tooLargeMsg : String := "File too large. Maximum size is 10MB."

/-- Embedding of the upload handler `upload_image` (src/main.py:93-144).
Checks run in source order: content type, empty body, image validation,
then the 10 MiB size limit (strict `>`); on success a job id is generated
from the random bits `rand`, the bytes are written to
`uploads/{job_id}_{safe_filename}`, and a job record with status
`uploaded` is stored (`created_at` and `updated_at` come from two separate
`datetime.now()` calls, hence the two arguments `now1`, `now2`). -/
def upload_image (decode : PILDecode) (content_type : Option String)
    (fname : Option String) (file_content : List Nat) (rand : Nat)
    (now1 : String) (now2 : String) (st : ServerState) :
    UploadResponse × ServerState :=
  if content_type_invalid content_type = true then
    (UploadResponse.httpError 400 invalidTypeMsg, st)
  else if file_content.length = 0 then
    (UploadResponse.httpError 400 emptyMsg, st)
  else if validate_image decode file_content = false then
    (UploadResponse.httpError 400 invalidFormatMsg, st)
  else if 10 * 1024 * 1024 < file_content.length then
    (UploadResponse.httpError 400 tooLargeMsg, st)
  else
    let job_id := uuidStr rand
    let sf := safe_filename fname job_id
    let filename := job_id ++ "_" ++ sf
    let file_path := "uploads/" ++ filename
    let job : Job :=
      { filename := sf, file_path := file_path, size := file_content.length,
        status := "uploaded", created_at := now1, updated_at := now2 }
    (UploadResponse.ok job_id sf file_content.length,
      { jobs_db := assocSet job_id job st.jobs_db,
        files := assocSet file_path file_content st.files })

/-- Response of the print handler: success JSON, a raised `HTTPException`,
or an exception escaping the handler uncaught (FastAPI then replies
HTTP 500 Internal Server Error with no structured detail). -/
inductive PrintResponse where
  | ok (message : String) (jobId : String)
  | httpError (status : Nat) (detail : String)
  | unhandledError (exc : String)
  deriving Repr, DecidableEq

/-- The uncaught exception raised by src/main.py:152. -/
def nameErrorMsg : String := "NameError: name idm is not defined"

/-- Embedding of the print handler `print_image` (src/main.py:147-279).
For an unknown job id it raises `HTTPException(404, "Job not found")`
(src/main.py:149-150).  For a known job id, line 152 reads
`job = jobs_db[job_id]/idm`: the name `idm` is not defined anywhere in the
module, so evaluating the line raises `NameError` before the `try` block
at line 155 is entered.  Every later line of the handler — the on-disk
file check, the HEIC/HEIF transcode, the forwarding POST to the printer
API, the status/timestamp updates, and the `finally` cleanup — is
unreachable, so the handler never mutates the state and the external
printer API is never contacted (hence no printer oracle is needed in this
embedding). -/
def print_image (job_id : String) (st : ServerState) :
    PrintResponse × ServerState :=
  match assocGet job_id st.jobs_db with
  | none => (PrintResponse.httpError 404 ("Job not found"), st)
  | some _ => (PrintResponse.unhandledError nameErrorMsg, st)

/-- Response of the status handler: the JSON
`{jobId, status, message, createdAt, updatedAt}` or a raised 404. -/
inductive StatusResponse where
  | ok (jobId : String) (status : String) (message : String)
      (createdAt : String) (updatedAt : String)
  | httpError (status : Nat) (detail : String)
  deriving Repr, DecidableEq

/-- Embedding of the status handler `get_job_status` (src/main.py:282-294). -/
def get_job_status (job_id : String) (st : ServerState) :
    StatusResponse × ServerState :=
  match assocGet job_id st.jobs_db with
  | none => (StatusResponse.httpError 404 ("Job not found"), st)
  | some job =>
    (StatusResponse.ok job_id job.status ("Job is " ++ job.status)
      job.created_at job.updated_at, st)

/-- One client request processed by the service, as a relation between
server states.  An `uploadStep` carries the freshness of the generated
identifier (the defining property of `uuid.uuid4()` collisions being
excluded); `printStep` and `statusStep` are unconditional. -/
inductive Step : ServerState → ServerState → Prop where
  | uploadStep (st : ServerState) (decode : PILDecode) (ct fn : Option String)
      (content : List Nat) (rand : Nat) (now1 now2 : String)
      (hfresh : assocGet (uuidStr rand) st.jobs_db = none) :
      Step st (upload_image decode ct fn content rand now1 now2 st).2
  | printStep (st : ServerState) (job_id : String) :
      Step st (print_image job_id st).2
  | statusStep (st : ServerState) (job_id : String) :
      Step st (get_job_status job_id st).2

/-- States reachable from the empty initial state by client requests. -/
inductive Reachable : ServerState → Prop where
  | init : Reachable emptyState
  | step {s s' : ServerState} : Reachable s → Step s s' → Reachable s'

theorem assocGet_set_self {β : Type} (k : String) (v : β)
    (l : List (String × β)) : assocGet k (assocSet k v l) = some v := by
  induction l with
  | nil => simp [assocSet, assocGet]
  | cons p rest ih =>
    obtain ⟨k', v'⟩ := p
    by_cases h : k' = k <;> simp [assocSet, assocGet, h, ih]

theorem assocGet_set_ne {β : Type} {k k₀ : String} (h : k₀ ≠ k) (v : β)
    (l : List (String × β)) : assocGet k₀ (assocSet k v l) = assocGet k₀ l := by
  induction l with
  | nil => simp [assocSet, assocGet, h.symm]
  | cons p rest ih =>
    obtain ⟨k', v'⟩ := p
    by_cases hk : k' = k
    · subst hk
      simp [assocSet, assocGet, h.symm]
    · simp [assocSet, assocGet, hk, ih]

theorem mem_keys_assocSet {β : Type} (k k₀ : String) (v : β)
    (l : List (String × β)) :
    k₀ ∈ (assocSet k v l).map Prod.fst ↔ k₀ ∈ l.map Prod.fst ∨ k₀ = k := by
  induction l with
  | nil => simp [assocSet]
  | cons p rest ih =>
    obtain ⟨k', v'⟩ := p
    by_cases h : k' = k
    · subst h
      by_cases h0 : k₀ = k' <;> simp [assocSet, h0]
    · simp [assocSet, h, ih]
      tauto

theorem nodup_keys_assocSet {β : Type} (k : String) (v : β)
    (l : List (String × β)) (hget : assocGet k l = none)
    (h : (l.map Prod.fst).Nodup) : ((assocSet k v l).map Prod.fst).Nodup := by
  induction l with
  | nil => simp [assocSet]
  | cons p rest ih =>
    obtain ⟨k', v'⟩ := p
    simp only [assocGet] at hget
    by_cases hk : k' = k
    · simp [hk] at hget
    · simp only [List.map_cons, List.nodup_cons] at h
      simp only [assocSet, if_neg hk, List.map_cons, List.nodup_cons]
      refine ⟨?_, ih (by simpa [hk] using hget) h.2⟩
      rw [mem_keys_assocSet]
      rintro (hmem | rfl)
      · exact h.1 hmem
      · exact hk rfl

theorem print_image_state (job_id : String) (st : ServerState) :
    (print_image job_id st).2 = st := by
  cases h : assocGet job_id st.jobs_db <;> simp [print_image, h]

theorem get_job_status_state (job_id : String) (st : ServerState) :
    (get_job_status job_id st).2 = st := by
  cases h : assocGet job_id st.jobs_db <;> simp [get_job_status, h]

theorem upload_image_state (decode : PILDecode) (ct fn : Option String)
    (content : List Nat) (rand : Nat) (now1 now2 : String) (st : ServerState) :
    (upload_image decode ct fn content rand now1 now2 st).2 = st ∨
      (upload_image decode ct fn content rand now1 now2 st).2 =
        { jobs_db := assocSet (uuidStr rand)
            { filename := safe_filename fn (uuidStr rand),
              file_path := "uploads/" ++ (uuidStr rand ++ "_" ++
                safe_filename fn (uuidStr rand)),
              size := content.length, status := "uploaded",
              created_at := now1, updated_at := now2 } st.jobs_db,
          files := assocSet ("uploads/" ++ (uuidStr rand ++ "_" ++
              safe_filename fn (uuidStr rand))) content st.files } := by
  unfold upload_image
  split
  · exact Or.inl rfl
  split
  · exact Or.inl rfl
  split
  · exact Or.inl rfl
  split
  · exact Or.inl rfl
  exact Or.inr rfl

theorem step_preserves_entry {s s' : ServerState} (hstep : Step s s')
    (id : String) (job : Job) (hget : assocGet id s.jobs_db = some job) :
    assocGet id s'.jobs_db = some job := by
  cases hstep with
  | uploadStep decode ct fn content rand now1 now2 hfresh =>
    rcases upload_image_state decode ct fn content rand now1 now2 s with h | h
    · rw [h]; exact hget
    · rw [h]
      have hne : id ≠ uuidStr rand := by
        intro e; rw [e, hfresh] at hget; exact Option.noConfusion hget
      rw [assocGet_set_ne hne]
      exact hget
  | printStep job_id => rw [print_image_state]; exact hget
  | statusStep job_id => rw [get_job_status_state]; exact hget

theorem step_new_entry {s s' : ServerState} (hstep : Step s s')
    (id : String) (job' : Job) (hpre : assocGet id s.jobs_db = none)
    (hpost : assocGet id s'.jobs_db = some job') : job'.status = "uploaded" := by
  cases hstep with
  | uploadStep decode ct fn content rand now1 now2 hfresh =>
    rcases upload_image_state decode ct fn content rand now1 now2 s with h | h
    · rw [h, hpre] at hpost; exact Option.noConfusion hpost
    · rw [h] at hpost
      by_cases he : id = uuidStr rand
      · subst he
        rw [assocGet_set_self] at hpost
        cases hpost
        rfl
      · rw [assocGet_set_ne he, hpre] at hpost
        exact Option.noConfusion hpost
  | printStep job_id =>
    rw [print_image_state, hpre] at hpost; exact Option.noConfusion hpost
  | statusStep job_id =>
    rw [get_job_status_state, hpre] at hpost; exact Option.noConfusion hpost

theorem reachable_nodup_keys {s : ServerState} (h : Reachable s) :
    (s.jobs_db.map Prod.fst).Nodup := by
  induction h with
  | init => simp [emptyState]
  | step hr hstep ih =>
    cases hstep with
    | uploadStep decode ct fn content rand now1 now2 hfresh =>
      rcases upload_image_state decode ct fn content rand now1 now2 _ with h | h
      · rw [h]; exact ih
      · rw [h]; exact nodup_keys_assocSet _ _ _ hfresh ih
    | printStep job_id => rw [print_image_state]; exact ih
    | statusStep job_id => rw [get_job_status_state]; exact ih

/-- Fixture: an uploaded PNG job whose backing file is on disk. -/
def c1Job : Job :=
  { filename := "photo.png", file_path := "uploads/j1_photo.png", size := 3,
    status := "uploaded", created_at := "t0", updated_at := "t0" }

/-- Fixture: store holding `c1Job` under id `j1`, file present. -/
def c1State : ServerState :=
  { jobs_db := [("j1", c1Job)], files := [("uploads/j1_photo.png", [255, 216, 255])] }

/-- Fixture: an uploaded job whose backing file was deleted from disk. -/
def c2Job : Job :=
  { filename := "b.png", file_path := "uploads/j2_b.png", size := 1,
    status := "uploaded", created_at := "t0", updated_at := "t0" }

/-- Fixture: store holding `c2Job` under id `j2`, uploads directory empty. -/
def c2State : ServerState := { jobs_db := [("j2", c2Job)], files := [] }

/-- Fixture: an uploaded HEIC job (upper-case extension) with file on disk. -/
def c6Job : Job :=
  { filename := "pic.HEIC", file_path := "uploads/j6_pic.HEIC", size := 4,
    status := "uploaded", created_at := "t0", updated_at := "t0" }

/-- Fixture: store holding `c6Job` under id `j6`, file present. -/
def c6State : ServerState :=
  { jobs_db := [("j6", c6Job)], files := [("uploads/j6_pic.HEIC", [0, 0, 0, 24])] }

/-- Fixture: an uploaded HEIC job used for the cleanup claim. -/
def c7Job : Job :=
  { filename := "r.heic", file_path := "uploads/j7_r.heic", size := 3,
    status := "uploaded", created_at := "t0", updated_at := "t0" }

/-- Fixture: store holding `c7Job` under id `j7`, file present. -/
def c7State : ServerState :=
  { jobs_db := [("j7", c7Job)], files := [("uploads/j7_r.heic", [0, 1, 2])] }

/-- C1: the claim says that for a known job whose backing file exists,
POST /api/print/{job_id} forwards the file and sets the status to
`completed` or `failed` according to the external response.  In the code,
line 152 (`job = jobs_db[job_id]/idm`, with `idm` undefined) raises a
`NameError` outside the `try` block for every known job, so the handler
crashes (HTTP 500) before reading the file or contacting the printer API,
and the job record is left untouched. -/
theorem c1_print_with_file_present_raises_name_error :
    assocGet ("j1") c1State.jobs_db = some c1Job ∧
    assocGet (c1Job.file_path) c1State.files = some [255, 216, 255] ∧
    (print_image ("j1") c1State).1 = PrintResponse.unhandledError nameErrorMsg ∧
    (print_image ("j1") c1State).2 = c1State :=
  ⟨rfl, rfl, rfl, rfl⟩

/-- C2: printing an unknown job id returns 404 without mutating the state,
and so does requesting status for an unknown id — these parts of the claim
hold.  But printing a known job whose backing file is absent from disk
raises the line-152 `NameError` (HTTP 500), not the claimed 404, because
the crash happens before the `os.path.exists` check at line 157. -/
theorem c2_not_found_behaviour :
    (print_image ("missing") c2State).1 = PrintResponse.httpError 404 ("Job not found") ∧
    (print_image ("missing") c2State).2 = c2State ∧
    (get_job_status ("missing") c2State).1 = StatusResponse.httpError 404 ("Job not found") ∧
    (get_job_status ("missing") c2State).2 = c2State ∧
    assocGet (c2Job.file_path) c2State.files = none ∧
    (print_image ("j2") c2State).1 = PrintResponse.unhandledError nameErrorMsg ∧
    (print_image ("j2") c2State).2 = c2State :=
  ⟨rfl, rfl, rfl, rfl, rfl, rfl, rfl⟩

/-- C6: the claim says a job whose filename ends in `.heic`/`.heif`
(case-insensitively) is transcoded to JPEG before forwarding.  The fixture
satisfies the trigger condition, yet the handler raises the line-152
`NameError` before reaching the transcode branch at line 165: no JPEG is
produced (the file map is unchanged) and nothing is forwarded. -/
theorem c6_heic_print_crashes_before_transcode :
    (strEndsWith (strToLower c6Job.filename) (".heic")
      || strEndsWith (strToLower c6Job.filename) (".heif")) = true ∧
    (print_image ("j6") c6State).1 = PrintResponse.unhandledError nameErrorMsg ∧
    (print_image ("j6") c6State).2 = c6State :=
  ⟨by decide, rfl, rfl⟩

/-- C7: the claim describes the `finally` cleanup after every forwarding
attempt.  The handler raises the line-152 `NameError` before the `try`
block is entered, so no forwarding attempt (and no cleanup) ever occurs;
the uploads directory, including the original stored file, is untouched. -/
theorem c7_no_forwarding_attempt_occurs :
    (print_image ("j7") c7State).1 = PrintResponse.unhandledError nameErrorMsg ∧
    (print_image ("j7") c7State).2.files = c7State.files ∧
    assocGet (c7Job.file_path) (print_image ("j7") c7State).2.files = some [0, 1, 2] :=
  ⟨rfl, rfl, rfl⟩

/-- C8: job identifiers in the store are pairwise distinct, records are
created with status `uploaded`, and across any single request the only
status transitions a stored job can undergo are uploaded → completed and
uploaded → failed (in this code no transition at all occurs, because the
print handler crashes at line 152 before its status updates); a completed
or failed job is never changed, and jobs are created only at upload time. -/
theorem c8_job_store_invariants {s s' : ServerState} (hreach : Reachable s)
    (hstep : Step s s') :
    (s.jobs_db.map Prod.fst).Nodup ∧
    (∀ id job job', assocGet id s.jobs_db = some job →
      assocGet id s'.jobs_db = some job' →
      job' = job ∨ (job.status = "uploaded" ∧
        (job'.status = "completed" ∨ job'.status = "failed"))) ∧
    (∀ id job, assocGet id s.jobs_db = some job →
      (job.status = "completed" ∨ job.status = "failed") →
      assocGet id s'.jobs_db = some job) ∧
    (∀ id job', assocGet id s.jobs_db = none →
      assocGet id s'.jobs_db = some job' → job'.status = "uploaded") := by
  refine ⟨reachable_nodup_keys hreach, ?_, ?_, ?_⟩
  · intro id job job' h1 h2
    rw [step_preserves_entry hstep id job h1] at h2
    cases h2
    exact Or.inl rfl
  · intro id job h1 _
    exact step_preserves_entry hstep id job h1
  · intro id job' h1 h2
    exact step_new_entry hstep id job' h1 h2

/-- Closed instance of `c8_job_store_invariants` at the initial state and
a concrete upload step. -/
theorem c8_job_store_invariants_witness :
    (emptyState.jobs_db.map Prod.fst).Nodup ∧
    (∀ id job job', assocGet id emptyState.jobs_db = some job →
      assocGet id ((upload_image (fun _ => none) none none [] 0 ("t1") ("t2")
        emptyState).2).jobs_db = some job' →
      job' = job ∨ (job.status = "uploaded" ∧
        (job'.status = "completed" ∨ job'.status = "failed"))) ∧
    (∀ id job, assocGet id emptyState.jobs_db = some job →
      (job.status = "completed" ∨ job.status = "failed") →
      assocGet id ((upload_image (fun _ => none) none none [] 0 ("t1") ("t2")
        emptyState).2).jobs_db = some job) ∧
    (∀ id job', assocGet id emptyState.jobs_db = none →
      assocGet id ((upload_image (fun _ => none) none none [] 0 ("t1") ("t2")
        emptyState).2).jobs_db = some job' → job'.status = "uploaded") :=
  c8_job_store_invariants Reachable.init
    (Step.uploadStep emptyState (fun _ => none) none none [] 0 ("t1") ("t2") rfl)

theorem uuidChars_ne_nil (r : Nat) : uuidChars r ≠ [] := by
  simp [uuidChars]

theorem uuidStr_ne_empty (r : Nat) : uuidStr r ≠ "" := by
  intro h
  exact uuidChars_ne_nil r (congrArg String.data h)

theorem content_type_invalid_iff (ct : Option String) :
    content_type_invalid ct = true ↔
      ∃ t, ct = some t ∧ t ≠ "" ∧ strStartsWith t ("image/") = false := by
  cases ct with
  | none => simp [content_type_invalid]
  | some t =>
    simp [content_type_invalid, Bool.and_eq_true, bne_iff_ne, Bool.not_eq_true']

/-- C3: the upload handler replies 400 exactly when the declared content
type is present (non-empty) and lacks the `image/` prefix, or the body is
empty, or the body exceeds 10 MiB, or the body fails `validate_image`;
uploads meeting none of these conditions are not rejected with 400. -/
theorem c3_upload_400_iff (decode : PILDecode) (ct fn : Option String)
    (content : List Nat) (rand : Nat) (now1 now2 : String) (st : ServerState) :
    (∃ d, (upload_image decode ct fn content rand now1 now2 st).1 =
        UploadResponse.httpError 400 d) ↔
      ((∃ t, ct = some t ∧ t ≠ "" ∧ strStartsWith t ("image/") = false) ∨
        content = [] ∨ 10 * 1024 * 1024 < content.length ∨
        validate_image decode content = false) := by
  unfold upload_image
  by_cases h1 : content_type_invalid ct = true
  · rw [if_pos h1]
    exact ⟨fun _ => Or.inl ((content_type_invalid_iff ct).1 h1),
      fun _ => ⟨invalidTypeMsg, rfl⟩⟩
  · rw [if_neg h1]
    by_cases h2 : content.length = 0
    · rw [if_pos h2]
      exact ⟨fun _ => Or.inr (Or.inl (List.length_eq_zero.mp h2)),
        fun _ => ⟨emptyMsg, rfl⟩⟩
    · rw [if_neg h2]
      by_cases h3 : validate_image decode content = false
      · rw [if_pos h3]
        exact ⟨fun _ => Or.inr (Or.inr (Or.inr h3)),
          fun _ => ⟨invalidFormatMsg, rfl⟩⟩
      · rw [if_neg h3]
        by_cases h4 : 10 * 1024 * 1024 < content.length
        · rw [if_pos h4]
          exact ⟨fun _ => Or.inr (Or.inr (Or.inl h4)),
            fun _ => ⟨tooLargeMsg, rfl⟩⟩
        · rw [if_neg h4]
          constructor
          · rintro ⟨d, hd⟩
            exact UploadResponse.noConfusion hd
          · rintro (⟨t, rfl, hne, hsw⟩ | hc | hlt | hv)
            · exact absurd (by simp [content_type_invalid, bne_iff_ne, hne, hsw])
                h1
            · exact absurd (by rw [hc]; rfl) h2
            · exact absurd hlt h4
            · exact absurd hv h3

/-- C5: uploading a valid image byte stream under 10 MiB (with an
acceptable declared content type and a non-empty original filename)
succeeds: the response carries the generated job id, the original
filename and the byte size; the raw bytes are written to
`uploads/{jobId}_{originalFilename}`; the generated id is non-empty; and
an immediate status request for that id reports `uploaded`. -/
theorem c5_upload_success (decode : PILDecode) (ct : Option String)
    (origName : String) (content : List Nat) (rand : Nat) (now1 now2 : String)
    (st : ServerState)
    (hct : content_type_invalid ct = false)
    (hname : origName ≠ "")
    (hne : content ≠ [])
    (hval : validate_image decode content = true)
    (hsize : content.length < 10 * 1024 * 1024) :
    (upload_image decode ct (some origName) content rand now1 now2 st).1 =
      UploadResponse.ok (uuidStr rand) origName content.length ∧
    uuidStr rand ≠ "" ∧
    assocGet ("uploads/" ++ (uuidStr rand ++ "_" ++ origName))
      (upload_image decode ct (some origName) content rand now1 now2
        st).2.files = some content ∧
    (get_job_status (uuidStr rand)
      (upload_image decode ct (some origName) content rand now1 now2 st).2).1 =
      StatusResponse.ok (uuidStr rand) ("uploaded") ("Job is uploaded")
        now1 now2 := by
  have hsf : safe_filename (some origName) (uuidStr rand) = origName := by
    simp [safe_filename, hname]
  unfold upload_image
  rw [if_neg (by simp [hct]), if_neg (fun h => hne (List.length_eq_zero.mp h)),
    if_neg (by simp [hval]), if_neg (by omega)]
  refine ⟨by simp [hsf], uuidStr_ne_empty rand, by simp [hsf, assocGet_set_self], ?_⟩
  simp [hsf, get_job_status, assocGet_set_self]

/-- Closed instance of `c5_upload_success` at a concrete three-byte JPEG
upload into the empty state. -/
theorem c5_upload_success_witness :
    (upload_image (fun _ => some (some ("jpeg"))) (some ("image/jpeg"))
      (some ("pic.jpg")) [1, 2, 3] 0 ("t1") ("t2") emptyState).1 =
      UploadResponse.ok (uuidStr 0) ("pic.jpg") ([1, 2, 3] : List Nat).length ∧
    uuidStr 0 ≠ "" ∧
    assocGet ("uploads/" ++ (uuidStr 0 ++ "_" ++ "pic.jpg"))
      (upload_image (fun _ => some (some ("jpeg"))) (some ("image/jpeg"))
        (some ("pic.jpg")) [1, 2, 3] 0 ("t1") ("t2") emptyState).2.files =
      some [1, 2, 3] ∧
    (get_job_status (uuidStr 0)
      (upload_image (fun _ => some (some ("jpeg"))) (some ("image/jpeg"))
        (some ("pic.jpg")) [1, 2, 3] 0 ("t1") ("t2") emptyState).2).1 =
      StatusResponse.ok (uuidStr 0) ("uploaded") ("Job is uploaded")
        ("t1") ("t2") :=
  c5_upload_success _ _ _ _ _ _ _ _ (by decide) (by decide) (by decide)
    (by decide) (by decide)

/-- C9: the 10 MiB size limit is strict — a body of exactly
`10 * 1024 * 1024` bytes that passes the other checks is accepted, and the
file-too-large rejection can only fire for bodies of strictly more than
`10 * 1024 * 1024` bytes. -/
theorem c9_ten_mib_boundary :
    (∀ (decode : PILDecode) (ct fn : Option String) (content : List Nat)
        (rand : Nat) (now1 now2 : String) (st : ServerState),
      content_type_invalid ct = false →
      validate_image decode content = true →
      content.length = 10 * 1024 * 1024 →
      (upload_image decode ct fn content rand now1 now2 st).1 =
        UploadResponse.ok (uuidStr rand) (safe_filename fn (uuidStr rand))
          content.length) ∧
    (∀ (decode : PILDecode) (ct fn : Option String) (content : List Nat)
        (rand : Nat) (now1 now2 : String) (st : ServerState),
      (upload_image decode ct fn content rand now1 now2 st).1 =
        UploadResponse.httpError 400 tooLargeMsg →
      10 * 1024 * 1024 < content.length) := by
  constructor
  · intro decode ct fn content rand now1 now2 st hct hval hlen
    unfold upload_image
    rw [if_neg (by simp [hct]), if_neg (by omega), if_neg (by simp [hval]),
      if_neg (by omega)]
  · intro decode ct fn content rand now1 now2 st h
    unfold upload_image at h
    split at h
    · exact absurd (UploadResponse.httpError.inj h).2 (by decide)
    split at h
    · exact absurd (UploadResponse.httpError.inj h).2 (by decide)
    split at h
    · exact absurd (UploadResponse.httpError.inj h).2 (by decide)
    split at h
    · assumption
    · exact UploadResponse.noConfusion h

/-- Closed instance of `c9_ten_mib_boundary` at a body of exactly
`10 * 1024 * 1024` bytes. -/
theorem c9_ten_mib_boundary_witness :
    (upload_image (fun _ => some (some ("png"))) none (some ("a.png"))
      (List.replicate (10 * 1024 * 1024) 255) 0 ("t1") ("t2") emptyState).1 =
      UploadResponse.ok (uuidStr 0) (safe_filename (some ("a.png")) (uuidStr 0))
        (List.replicate (10 * 1024 * 1024) 255).length :=
  c9_ten_mib_boundary.1 _ none _ _ 0 _ _ emptyState rfl rfl
    (List.length_replicate _ _)

/-- C10: the upload handler checks emptiness, then image-format
validation, then size; a non-empty body over 10 MiB that fails validation
is rejected with the invalid-format message, not the file-too-large one. -/
theorem c10_format_error_precedes_size (decode : PILDecode)
    (ct fn : Option String) (content : List Nat) (rand : Nat)
    (now1 now2 : String) (st : ServerState)
    (hct : content_type_invalid ct = false)
    (hne : content ≠ [])
    (_hbig : 10 * 1024 * 1024 < content.length)
    (hval : validate_image decode content = false) :
    (upload_image decode ct fn content rand now1 now2 st).1 =
      UploadResponse.httpError 400 invalidFormatMsg := by
  unfold upload_image
  rw [if_neg (by simp [hct]), if_neg (fun h => hne (List.length_eq_zero.mp h)),
    if_pos hval]

/-- Closed instance of `c10_format_error_precedes_size` at a body of
`10 * 1024 * 1024 + 1` bytes whose decode reports an unsupported format. -/
theorem c10_format_error_precedes_size_witness :
    (upload_image (fun _ => some (some ("text"))) none none
      (List.replicate (10 * 1024 * 1024 + 1) 0) 0 ("t1") ("t2")
      emptyState).1 = UploadResponse.httpError 400 invalidFormatMsg :=
  c10_format_error_precedes_size _ none none _ 0 _ _ emptyState rfl
    (by
      intro h
      have h2 := congrArg List.length h
      rw [List.length_replicate] at h2
      exact Nat.noConfusion h2)
    (by rw [List.length_replicate]; exact Nat.lt_succ_self _) rfl

/-- Lower-cased PIL format name as computed at src/main.py:52 (`None`
becomes the empty string). -/
def format_name : Option String → String
  | some f => strToLower f
  | none => ""

/-- The format set named by the claim: {jpeg, png, gif, webp, heic, heif}. -/
def claim_formats : List String :=
  [("jpeg"), ("png"), ("gif"), ("webp"), ("heic"), ("heif")]

/-- The claim's format set amended with `jpg`, which src/main.py:51 also
lists as a supported PIL format name. -/
def amended_formats : List String :=
  [("jpeg"), ("jpg"), ("png"), ("gif"), ("webp"), ("heic"), ("heif")]

/-- The acceptance condition exactly as the claim states it: either the
decode succeeds and the (lower-cased) format is in the claim's set, or the
decode fails and the magic-byte fallback matches. -/
def claim_accepts (decode : PILDecode) (content : List Nat) : Prop :=
  (∃ fmt?, decode content = some fmt? ∧ format_name fmt? ∈ claim_formats) ∨
  (decode content = none ∧ magic_fallback content = true)

/-- The acceptance condition with the amended format set. -/
def amended_accepts (decode : PILDecode) (content : List Nat) : Prop :=
  (∃ fmt?, decode content = some fmt? ∧ format_name fmt? ∈ amended_formats) ∨
  (decode content = none ∧ magic_fallback content = true)

/-- C4 counterexample: when the decoder succeeds with format name `jpg`
(which is in the source's `supported_formats` but not in the claim's set
{jpeg, png, gif, webp, heic, heif}), the validator accepts although the
claim as stated says it must reject. -/
theorem c4_jpg_counterexample :
    validate_image (fun _ => some (some ("jpg"))) [0] = true ∧
    ¬ claim_accepts (fun _ => some (some ("jpg"))) [0] := by
  refine ⟨by decide, ?_⟩
  rintro (⟨fmt?, hfmt, hmem⟩ | ⟨hnone, _⟩)
  · cases Option.some.inj hfmt
    exact absurd hmem (by decide)
  · exact Option.noConfusion hnone

/-- C4 (amended): the validator accepts a byte string iff either decoding
succeeds and the lower-cased format is one of
{jpeg, jpg, png, gif, webp, heic, heif}, or decoding fails and the leading
bytes match one of the magic-number signatures; in particular the
magic-byte fallback is consulted only when decoding fails. -/
theorem c4_validator_two_stage (decode : PILDecode) (content : List Nat) :
    validate_image decode content = true ↔ amended_accepts decode content := by
  rcases hd : decode content with _ | fmt?
  · simp [validate_image, amended_accepts, hd]
  · cases fmt? with
    | none =>
      simp [validate_image, amended_accepts, hd, format_name,
        supported_formats, amended_formats, List.contains]
    | some f =>
      simp [validate_image, amended_accepts, hd, format_name,
        supported_formats, amended_formats, List.contains]

end ReceiptPrint
